import Mathlib

/-!
Shallow embedding of the fluids simulation pipeline of
`src/physics/Fluids.cpp` (RealTimeParticles repository).

The file under `src/` is the orchestration layer: it sequences OpenCL
kernel dispatches, scalar-argument bindings, radix-sort invocations and
GL-buffer acquisition once per tick (`Fluids::update`), plus `Fluids::reset`,
the constructor `Fluids::Fluids`, and the compile-time constant computation
of `Fluids::createProgram`.  We embed that layer as a function from a
simulation state and a wall-clock instant to the successor state together
with the list of dispatch events the tick performs, mirroring the source
line by line.

The kernel bodies themselves live in `fluids.cl`, which is not part of the
reviewed sources; where a claim needs the effect of such a kernel (the grid
index function, the predict formula, the radix-sort permutation, the
cell-range cap) the corresponding definition is modelled from the spec and
marked as such in its doc comment.

Floating-point scalars (the time step, box size, velocity) are modelled as
rationals; the only float operations the embedded layer performs on them
are division by 16, comparison with 30, squaring and division, all exact
on the value ranges involved.
-/

/-- Kernel names of `Fluids.cpp` lines 14-34, one constructor per
`#define`d OpenCL kernel name. -/
inductive KernelName where
  | infPosVerts
  | randPosVerts
  | updatePosWithBouncingWalls
  | updatePosWithCyclicWalls
  | updateVel
  | flushGridDetector
  | fillGridDetector
  | resetCameraDist
  | fillCameraDist
  | resetCellIDs
  | fillCellIDs
  | flushStartEndCell
  | fillStartCell
  | fillEndCell
  | adjustEndCell
  | predictPosition
  | computeFluidDensity
  | computeConstraintFactor
  | computeConstraintCorrection
  | correctPosition
deriving DecidableEq

/-- Buffer names created in `Fluids::createBuffers` (lines 79-96) that the
orchestration layer mentions by name in sorts and GL acquisition. -/
inductive BufName where
  | p_pos
  | p_vel
  | p_predPos
  | p_cellID
  | p_cameraDist
  | c_partDetector
  | u_cameraPos
deriving DecidableEq

/-- One observable operation issued by the orchestration layer:
a kernel dispatch over a number of work items (`clContext.runKernel`),
a scalar kernel-argument binding (`clContext.setKernelArg`, value a float
modelled as a rational), a radix-sort invocation with its key buffer and
payload buffers (`m_radixSort.sort`), or GL buffer acquisition/release. -/
inductive Event where
  | kernel (name : KernelName) (workItems : ℕ)
  | argF (name : KernelName) (slot : ℕ) (value : ℚ)
  | sortBuf (key : BufName) (payloads : List BufName)
  | acquire (bufs : List BufName)
  | release (bufs : List BufName)
deriving DecidableEq

/-- Member state of the `Fluids` object (fields of `Fluids` and of its
`Model` base that `Fluids.cpp` reads; the base class is not under `src/`,
so its members are taken as plain fields here).  `time` is `m_time`
expressed in milliseconds of a monotonic clock. -/
structure FluidsState where
  init : Bool
  pause : Bool
  simplifiedMode : Bool
  boundary : ℕ
  maxNbPartsInCell : ℕ
  currNbParticles : ℕ
  maxNbParticles : ℕ
  nbCells : ℕ
  boxSize : ℚ
  gridRes : ℕ
  velocity : ℚ
  dim2D : Bool
  time : ℕ
deriving DecidableEq

/-- Construction parameters (`ModelParams`, declared outside `src/`):
the fields `Fluids.cpp` and the spec (§6 runtime parameters) mention. -/
structure ModelParams where
  maxNbParticles : ℕ
  nbCells : ℕ
  gridRes : ℕ
  boxSize : ℚ
  currNbParticles : ℕ
  velocity : ℚ
  dim2D : Bool
  pause : Bool
  boundary : ℕ
deriving DecidableEq

/-- Underlying integral value of the `Boundary::CyclicWall` enumerator
(the `Boundary` enumeration is declared outside `src/`; the concrete
numeral is an embedding choice, the theorems only use that the two
enumerators are distinct). -/
def Boundary.cyclicWall : ℕ := 0

/-- Underlying integral value of the `Boundary::BouncingWall` enumerator. -/
def Boundary.bouncingWall : ℕ := 1

/-- The fixed Jacobi iteration count, `#define MAX_NB_JACOBI_ITERS 3`
(`Fluids.cpp` line 36). -/
def MAX_NB_JACOBI_ITERS : ℕ := 3

/-- GL buffers acquired at tick start and released at tick end
(`Fluids.cpp` lines 190 and 255). -/
def glBuffersTick : List BufName :=
  [BufName.p_pos, BufName.c_partDetector, BufName.u_cameraPos]

/-- One round of the Jacobi solver loop body (`Fluids.cpp` lines 218-229):
density, constraint factor, constraint correction, correct position, in
that order, each over the current particle count. -/
def jacobiIter (n : ℕ) : List Event :=
  [Event.kernel KernelName.computeFluidDensity n,
   Event.kernel KernelName.computeConstraintFactor n,
   Event.kernel KernelName.computeConstraintCorrection n,
   Event.kernel KernelName.correctPosition n]

/-- The `for (int iter = 0; iter < MAX_NB_JACOBI_ITERS; ++iter)` loop:
`k` sequential copies of the round body. -/
def jacobiLoop (k n : ℕ) : List Event :=
  List.flatten (List.replicate k (jacobiIter n))

/-- Time step computation of `Fluids.cpp` lines 194-198: the wall-clock
delta in milliseconds divided by 16, reset to zero when the result
exceeds 30 (the pause-gap clamp).  Division of an integral millisecond
count by 16 and comparison with 30 are exact in single precision on the
relevant range, so the rational value coincides with the float value. -/
def Fluids.timeStepOf (s : FluidsState) (nowMs : ℕ) : ℚ :=
  let raw : ℚ := ((nowMs - s.time : ℕ) : ℚ) / 16
  if 30 < raw then 0 else raw

/-- The boundary `switch` of `Fluids.cpp` lines 235-245: a case for
`CyclicWall`, a case for `BouncingWall`, and no `default` — any other
underlying value falls through with no dispatch. -/
def boundarySwitch (b : ℕ) (timeStep : ℚ) (n : ℕ) : List Event :=
  if b = Boundary.cyclicWall then
    [Event.argF KernelName.updatePosWithCyclicWalls 1 timeStep,
     Event.kernel KernelName.updatePosWithCyclicWalls n]
  else if b = Boundary.bouncingWall then
    [Event.argF KernelName.updatePosWithBouncingWalls 1 timeStep,
     Event.kernel KernelName.updatePosWithBouncingWalls n]
  else []

/-- `Fluids::update` (`Fluids.cpp` lines 183-256): early return when not
initialized; otherwise acquire GL buffers; when unpaused, compute the
clamped time step, refresh `m_time`, and dispatch cell-ID fill, the
physics sort over `p_pos`/`p_vel` keyed by `p_cellID`, predict (with the
time step bound at argument slot 2), the start/end cell-range build with
the optional adjust step, the Jacobi loop, the velocity update (time step
at slot 1), the boundary switch, and the grid-detector flush/fill; in
every case dispatch the camera-distance fill, sort by `p_cameraDist`, and
release the GL buffers. -/
def Fluids.update (s : FluidsState) (nowMs : ℕ) : FluidsState × List Event :=
  if s.init = false then (s, [])
  else
    let renderTail : List Event :=
      [Event.kernel KernelName.fillCameraDist s.currNbParticles,
       Event.sortBuf BufName.p_cameraDist [BufName.p_pos, BufName.p_vel],
       Event.release glBuffersTick]
    if s.pause then (s, Event.acquire glBuffersTick :: renderTail)
    else
      let timeStep := Fluids.timeStepOf s nowMs
      let physics : List Event :=
        [Event.kernel KernelName.fillCellIDs s.currNbParticles,
         Event.sortBuf BufName.p_cellID [BufName.p_pos, BufName.p_vel],
         Event.argF KernelName.predictPosition 2 timeStep,
         Event.kernel KernelName.predictPosition s.currNbParticles,
         Event.kernel KernelName.flushStartEndCell s.nbCells,
         Event.kernel KernelName.fillStartCell s.currNbParticles,
         Event.kernel KernelName.fillEndCell s.currNbParticles]
        ++ (if s.simplifiedMode then [Event.kernel KernelName.adjustEndCell s.nbCells] else [])
        ++ jacobiLoop MAX_NB_JACOBI_ITERS s.currNbParticles
        ++ [Event.argF KernelName.updateVel 1 timeStep,
            Event.kernel KernelName.updateVel s.currNbParticles]
        ++ boundarySwitch s.boundary timeStep s.currNbParticles
        ++ [Event.kernel KernelName.flushGridDetector s.nbCells,
            Event.kernel KernelName.fillGridDetector s.currNbParticles]
      ({ s with time := nowMs }, Event.acquire glBuffersTick :: (physics ++ renderTail))

/-- `Fluids::updateFluidsParamsInKernel` (`Fluids.cpp` lines 139-159):
binds the dimension scalar on the random-position kernel and the velocity
scalar on the velocity-update kernel (the boids block is commented out in
the source and not modelled). -/
def Fluids.updateFluidsParamsInKernel (s : FluidsState) : List Event :=
  [Event.argF KernelName.randPosVerts 2 (if s.dim2D then 2 else 3),
   Event.argF KernelName.updateVel 2 s.velocity]

/-- `Fluids::reset` (`Fluids.cpp` lines 161-181): early return when not
initialized; otherwise re-bind kernel parameters, stamp `m_time`, and
dispatch the initialization kernels between GL acquire and release. -/
def Fluids.reset (s : FluidsState) (nowMs : ℕ) : FluidsState × List Event :=
  if s.init = false then (s, [])
  else
    ({ s with time := nowMs },
     Fluids.updateFluidsParamsInKernel s ++
     [Event.acquire [BufName.p_pos, BufName.c_partDetector],
      Event.kernel KernelName.infPosVerts s.maxNbParticles,
      Event.kernel KernelName.randPosVerts s.currNbParticles,
      Event.kernel KernelName.flushGridDetector s.nbCells,
      Event.kernel KernelName.fillGridDetector s.currNbParticles,
      Event.kernel KernelName.resetCellIDs s.maxNbParticles,
      Event.kernel KernelName.resetCameraDist s.maxNbParticles,
      Event.release [BufName.p_pos, BufName.c_partDetector]])

/-- The `Fluids` constructor (`Fluids.cpp` lines 38-60): copies the
construction parameters, hard-codes `m_simplifiedMode = true` and
`m_maxNbPartsInCell = 1000`, performs program/buffer/kernel creation,
sets `m_init = true`, and calls `reset()`.  No parameter — in particular
no boundary-mode value — is validated or rejected anywhere in the body. -/
def Fluids.construct (p : ModelParams) (nowMs : ℕ) : FluidsState × List Event :=
  Fluids.reset
    { init := true
      pause := p.pause
      simplifiedMode := true
      boundary := p.boundary
      maxNbPartsInCell := 1000
      currNbParticles := p.currNbParticles
      maxNbParticles := p.maxNbParticles
      nbCells := p.nbCells
      boxSize := p.boxSize
      gridRes := p.gridRes
      velocity := p.velocity
      dim2D := p.dim2D
      time := 0 } nowMs

/-- Truncation of a rational toward zero, the effect of a C `(int)` cast
on a nonnegative-or-negative value. -/
def ratTrunc (q : ℚ) : ℤ :=
  if q < 0 then ⌈q⌉ else ⌊q⌋

/-- Build-time constants assembled by `Fluids::createProgram`
(`Fluids.cpp` lines 62-77) and baked into the compute program:
`EFFECT_RADIUS_SQUARED` is `(int)(m_boxSize * m_boxSize / (m_gridRes * m_gridRes))`,
`ABS_WALL_POS` is `m_boxSize / 2.0f`, plus the grid resolution, cell count
and per-cell particle cap. -/
structure ProgramConstants where
  effectRadiusSquared : ℤ
  absWallPos : ℚ
  gridRes : ℕ
  gridNumCells : ℕ
  numMaxPartsInCell : ℕ
deriving DecidableEq

/-- `Fluids::createProgram`, restricted to the constant values it
compiles into the program (the build-option string formatting is not
modelled). -/
def Fluids.createProgram (s : FluidsState) : ProgramConstants :=
  { effectRadiusSquared :=
      ratTrunc (s.boxSize * s.boxSize / ((s.gridRes : ℚ) * (s.gridRes : ℚ)))
    absWallPos := s.boxSize / 2
    gridRes := s.gridRes
    gridNumCells := s.nbCells
    numMaxPartsInCell := s.maxNbPartsInCell }

/-- Particle-local 3D vector over rationals (the `float4` buffers carry a
homogeneous fourth component the kernels leave unused, spec §3). -/
structure Vec3 where
  x : ℚ
  y : ℚ
  z : ℚ
deriving DecidableEq

instance : Inhabited Vec3 := ⟨⟨0, 0, 0⟩⟩

/-- Modelled from the spec: the predict formula of the `predictPosition`
kernel (spec §4.4 step 1, `PredictedPosition[i] = Position[i] + Velocity[i] * timeStep`);
the kernel body is in `fluids.cl`, which is not under `src/`. -/
def predictParticle (timeStep : ℚ) (p v : Vec3) : Vec3 :=
  ⟨p.x + v.x * timeStep, p.y + v.y * timeStep, p.z + v.z * timeStep⟩

/-- Modelled from the spec: one axis of the grid index function
(spec §4.1, cell coordinates clamped into `[0, gridResolution)` from a
position in the box `[-boxSize/2, boxSize/2]`); the `fillCellIDs` kernel
body is in `fluids.cl`, which is not under `src/`. -/
def cellCoordOf (boxSize : ℚ) (gridRes : ℕ) (x : ℚ) : ℕ :=
  min (gridRes - 1) (Int.toNat ⌊(x + boxSize / 2) * (gridRes : ℚ) / boxSize⌋)

/-- Modelled from the spec: row-major flattening of the three clamped cell
coordinates into a cell identifier (spec §4.1). -/
def gridCellID (boxSize : ℚ) (gridRes : ℕ) (p : Vec3) : ℕ :=
  (cellCoordOf boxSize gridRes p.x * gridRes + cellCoordOf boxSize gridRes p.y) * gridRes
    + cellCoordOf boxSize gridRes p.z

/-- Modelled from the spec: the effect of dispatching `fillCellIDs` over
`n` work items (spec §4.1): slots below `n` receive the grid cell of the
corresponding predicted position, slots at `n` and beyond keep their
previous (sentinel) content. -/
def fillCellIDsRun (boxSize : ℚ) (gridRes n : ℕ) (predPos : List Vec3)
    (cellID : List ℕ) : List ℕ :=
  (List.range cellID.length).map fun i =>
    if i < n then gridCellID boxSize gridRes (predPos.getD i default) else cellID.getD i 0

/-- Buffer contents relevant before the physics sort of a tick: positions,
velocities, the predicted positions left by the previous tick, and the
cell-ID buffer. -/
structure PreBuffers where
  pos : List Vec3
  vel : List Vec3
  predPos : List Vec3
  cellID : List ℕ
deriving DecidableEq

/-- Recognizes the physics-sort invocation (key buffer `p_cellID`). -/
def Event.isPhysicsSort : Event → Bool
  | Event.sortBuf BufName.p_cellID _ => true
  | _ => false

/-- Semantics of the events that can precede the physics sort inside a
tick: the only buffer-writing one is the `fillCellIDs` dispatch (modelled
from the spec, §4.1); every other event leaves these buffers unchanged. -/
def stepPre (s : FluidsState) (b : PreBuffers) : Event → PreBuffers
  | Event.kernel KernelName.fillCellIDs n =>
      { b with cellID := fillCellIDsRun s.boxSize s.gridRes n b.predPos b.cellID }
  | _ => b

/-- Contents of the `p_cellID` buffer at the moment the physics sort of an
unpaused tick reads it: fold the pre-sort event semantics over the prefix
of the tick's trace up to (excluding) the first physics-sort event. -/
def cellIDsAtPhysicsSort (s : FluidsState) (nowMs : ℕ) (b : PreBuffers) : List ℕ :=
  (((Fluids.update s nowMs).2.takeWhile fun e => !e.isPhysicsSort).foldl (stepPre s) b).cellID

/-- Insertion of an (original index, key) pair into an index list already
sorted by key, placed before any strictly larger key and before equal keys
of later original indices. -/
def insertIdxKey (x : ℕ × ℕ) : List (ℕ × ℕ) → List (ℕ × ℕ)
  | [] => [x]
  | y :: ys => if y.2 < x.2 then y :: insertIdxKey x ys else x :: y :: ys

/-- Modelled from the spec: the permutation produced by the radix sort
(§4.2) — a stable argsort of the key buffer; the `RadixSort` implementation
is not under `src/`, only its invocation sites in `Fluids.cpp` are. -/
def sortPerm (keys : List ℕ) : List ℕ :=
  (keys.enum.foldr insertIdxKey []).map Prod.fst

/-- Application of a permutation, given as the list of source indices, to
a payload buffer. -/
def applyPerm {α : Type} [Inhabited α] (σ : List ℕ) (l : List α) : List α :=
  σ.map fun i => l.getD i default

/-- Modelled from the spec: the radix sort applies the single permutation
derived from the key buffer to each payload buffer (§4.2). -/
def sortPayload {α : Type} [Inhabited α] (keys : List ℕ) (payload : List α) : List α :=
  applyPerm (sortPerm keys) payload

/-- Modelled from the spec: the `adjustEndCell` kernel (§4.3 step 4) caps
each cell range so that `end - start` does not exceed the per-cell
particle cap, truncating the overflow; it returns a plain table — there is
no error outcome. -/
def adjustEndCellRun (cap : ℕ) (table : List (ℕ × ℕ)) : List (ℕ × ℕ) :=
  table.map fun se => (se.1, min se.2 (se.1 + cap))

/-- Recognizes the four Jacobi solver passes. -/
def Event.isSolverPass : Event → Bool
  | Event.kernel KernelName.computeFluidDensity _ => true
  | Event.kernel KernelName.computeConstraintFactor _ => true
  | Event.kernel KernelName.computeConstraintCorrection _ => true
  | Event.kernel KernelName.correctPosition _ => true
  | _ => false

/-- Recognizes a dispatch of either boundary position-update kernel. -/
def Event.isPosUpdate : Event → Bool
  | Event.kernel KernelName.updatePosWithCyclicWalls _ => true
  | Event.kernel KernelName.updatePosWithBouncingWalls _ => true
  | _ => false

/-- Recognizes the occupancy-grid (grid detector) flush and fill
dispatches. -/
def Event.touchesGridDetector : Event → Bool
  | Event.kernel KernelName.flushGridDetector _ => true
  | Event.kernel KernelName.fillGridDetector _ => true
  | _ => false

/-- Holds when a sort invocation carries exactly the position and velocity
buffers as its payloads (vacuously true of non-sort events). -/
def Event.pairedSortOK : Event → Bool
  | Event.sortBuf _ ps => ps = [BufName.p_pos, BufName.p_vel]
  | _ => true

/-- A concrete initialized, unpaused state: one active particle, grid
resolution 2, box size 10, cyclic boundary, simplified mode on (the
constructor's defaults for the last two flags). -/
def runState : FluidsState :=
  { init := true
    pause := false
    simplifiedMode := true
    boundary := Boundary.cyclicWall
    maxNbPartsInCell := 1000
    currNbParticles := 1
    maxNbParticles := 1
    nbCells := 8
    boxSize := 10
    gridRes := 2
    velocity := 0
    dim2D := false
    time := 0 }

/-- `runState` with the pause flag set. -/
def pausedState : FluidsState := { runState with pause := true }

/-- `runState` with a boundary value that is neither enumerator. -/
def invalidBoundaryState : FluidsState := { runState with boundary := 2 }

/-- `runState` with the initialization flag cleared. -/
def uninitState : FluidsState := { runState with init := false }

/-- Construction parameters carrying a boundary value that is neither
enumerator. -/
def invalidParams : ModelParams :=
  { maxNbParticles := 1
    nbCells := 8
    gridRes := 2
    boxSize := 10
    currNbParticles := 1
    velocity := 0
    dim2D := false
    pause := false
    boundary := 2 }

/-- Concrete pre-tick buffers for one particle: the predicted position
left by the previous tick sits in grid cell 0, while the fresh prediction
from position and velocity lands in grid cell 7. -/
def staleBuffers : PreBuffers :=
  { pos := [⟨2, 2, 2⟩]
    vel := [⟨1, 1, 1⟩]
    predPos := [⟨-4, -4, -4⟩]
    cellID := [5] }

/-- Auxiliary: reading a zipped pair at an index is the pair of the reads,
when the two lists have equal length. -/
theorem getD_zip {α β : Type} [Inhabited α] [Inhabited β] (a : List α) (b : List β)
    (h : a.length = b.length) (i : ℕ) :
    (a.zip b).getD i default = (a.getD i default, b.getD i default) := by
  induction a generalizing b i with
  | nil =>
      have hb : b = [] := List.length_eq_zero.mp h.symm
      subst hb
      simp [List.getD]
      rfl
  | cons x xs ih =>
      cases b with
      | nil => simp at h
      | cons y ys =>
          cases i with
          | zero => simp [List.getD]
          | succ n =>
              simp only [List.zip_cons_cons, List.getD_cons_succ]
              exact ih ys (by simpa using h) n

/-- Auxiliary: the event list of an unpaused, initialized tick, written as
one flat concatenation. -/
theorem update_unpaused_trace (s : FluidsState) (nowMs : ℕ)
    (h : s.init = true) (hp : s.pause = false) :
    (Fluids.update s nowMs).2 =
      [Event.acquire glBuffersTick,
       Event.kernel KernelName.fillCellIDs s.currNbParticles,
       Event.sortBuf BufName.p_cellID [BufName.p_pos, BufName.p_vel],
       Event.argF KernelName.predictPosition 2 (Fluids.timeStepOf s nowMs),
       Event.kernel KernelName.predictPosition s.currNbParticles,
       Event.kernel KernelName.flushStartEndCell s.nbCells,
       Event.kernel KernelName.fillStartCell s.currNbParticles,
       Event.kernel KernelName.fillEndCell s.currNbParticles]
      ++ (if s.simplifiedMode then [Event.kernel KernelName.adjustEndCell s.nbCells] else [])
      ++ (jacobiIter s.currNbParticles ++ jacobiIter s.currNbParticles
            ++ jacobiIter s.currNbParticles)
      ++ [Event.argF KernelName.updateVel 1 (Fluids.timeStepOf s nowMs),
          Event.kernel KernelName.updateVel s.currNbParticles]
      ++ boundarySwitch s.boundary (Fluids.timeStepOf s nowMs) s.currNbParticles
      ++ [Event.kernel KernelName.flushGridDetector s.nbCells,
          Event.kernel KernelName.fillGridDetector s.currNbParticles,
          Event.kernel KernelName.fillCameraDist s.currNbParticles,
          Event.sortBuf BufName.p_cameraDist [BufName.p_pos, BufName.p_vel],
          Event.release glBuffersTick] := by
  simp [Fluids.update, h, hp, jacobiLoop, MAX_NB_JACOBI_ITERS, jacobiIter]

/-- Auxiliary: a paused, initialized tick, state and events. -/
theorem update_paused (s : FluidsState) (nowMs : ℕ)
    (h : s.init = true) (hp : s.pause = true) :
    Fluids.update s nowMs =
      (s, [Event.acquire glBuffersTick,
           Event.kernel KernelName.fillCameraDist s.currNbParticles,
           Event.sortBuf BufName.p_cameraDist [BufName.p_pos, BufName.p_vel],
           Event.release glBuffersTick]) := by
  simp [Fluids.update, h, hp]

/-- Auxiliary: the boundary switch carries correctly paired payloads
(it issues no sort at all). -/
theorem pairedSort_boundarySwitch (b : ℕ) (t : ℚ) (n : ℕ) :
    (boundarySwitch b t n).all Event.pairedSortOK = true := by
  unfold boundarySwitch
  split
  · simp [Event.pairedSortOK]
  · split <;> simp [Event.pairedSortOK]

/-- Auxiliary: every sort invocation issued by a tick carries exactly the
position and velocity buffers as payloads. -/
theorem pairedSort_all (s : FluidsState) (nowMs : ℕ) :
    (Fluids.update s nowMs).2.all Event.pairedSortOK = true := by
  cases hi : s.init
  · simp [Fluids.update, hi]
  · cases hp : s.pause
    · rw [update_unpaused_trace s nowMs hi hp]
      have hbs := pairedSort_boundarySwitch s.boundary (Fluids.timeStepOf s nowMs)
        s.currNbParticles
      cases hS : s.simplifiedMode <;>
        simp [hS, Event.pairedSortOK, List.all_append, hbs, jacobiIter]
    · rw [update_paused s nowMs hi hp]
      simp [Event.pairedSortOK]

/-- Auxiliary: the boundary switch never dispatches the cell-range adjust
kernel. -/
theorem adjust_not_in_boundarySwitch (b : ℕ) (t : ℚ) (n m : ℕ) :
    Event.kernel KernelName.adjustEndCell m ∉ boundarySwitch b t n := by
  unfold boundarySwitch
  split
  · simp
  · split <;> simp

/-- C9: calls made before construction completes are no-ops — if the
initialization flag is not set, both `Fluids::reset` and `Fluids::update`
return immediately, issuing no event and leaving the state unchanged. -/
theorem uninitialized_noop (s : FluidsState) (nowMs : ℕ) (h : s.init = false) :
    Fluids.update s nowMs = (s, []) ∧ Fluids.reset s nowMs = (s, []) := by
  constructor <;> simp [Fluids.update, Fluids.reset, h]

theorem uninitialized_noop_witness :
    Fluids.update uninitState 123 = (uninitState, []) ∧
    Fluids.reset uninitState 123 = (uninitState, []) :=
  uninitialized_noop uninitState 123 rfl

/-- C10: the `EFFECT_RADIUS_SQUARED` constant compiled into the solver is
the integer truncation of `boxSize * boxSize / (gridRes * gridRes)`; in
particular, whenever `boxSize` is (nonnegative and) less than `gridRes`,
the constant is exactly 0. -/
theorem effect_radius_squared_truncation (s : FluidsState)
    (h0 : 0 ≤ s.boxSize) (hlt : s.boxSize < (s.gridRes : ℚ)) :
    (Fluids.createProgram s).effectRadiusSquared =
      ratTrunc (s.boxSize * s.boxSize / ((s.gridRes : ℚ) * (s.gridRes : ℚ))) ∧
    (Fluids.createProgram s).effectRadiusSquared = 0 := by
  refine ⟨rfl, ?_⟩
  have hR : (0 : ℚ) < (s.gridRes : ℚ) := lt_of_le_of_lt h0 hlt
  have hRR : (0 : ℚ) < (s.gridRes : ℚ) * (s.gridRes : ℚ) := mul_pos hR hR
  have hq0 : (0 : ℚ) ≤ s.boxSize * s.boxSize / ((s.gridRes : ℚ) * (s.gridRes : ℚ)) :=
    div_nonneg (mul_nonneg h0 h0) hRR.le
  have hq1 : s.boxSize * s.boxSize / ((s.gridRes : ℚ) * (s.gridRes : ℚ)) < 1 := by
    rw [div_lt_one hRR]
    exact mul_self_lt_mul_self h0 hlt
  show ratTrunc _ = 0
  rw [ratTrunc, if_neg (not_lt.mpr hq0)]
  exact Int.floor_eq_zero_iff.mpr (Set.mem_Ico.mpr ⟨hq0, hq1⟩)

theorem effect_radius_squared_witness :
    (Fluids.createProgram { runState with boxSize := 3, gridRes := 5 }).effectRadiusSquared =
      ratTrunc (({ runState with boxSize := 3, gridRes := 5 } : FluidsState).boxSize *
          ({ runState with boxSize := 3, gridRes := 5 } : FluidsState).boxSize /
        ((({ runState with boxSize := 3, gridRes := 5 } : FluidsState).gridRes : ℚ) *
          (({ runState with boxSize := 3, gridRes := 5 } : FluidsState).gridRes : ℚ))) ∧
    (Fluids.createProgram { runState with boxSize := 3, gridRes := 5 }).effectRadiusSquared = 0 :=
  effect_radius_squared_truncation { runState with boxSize := 3, gridRes := 5 }
    (by decide) (by decide)

/-- C5: a tick executed while paused mutates no physics state — its full
event list is the GL acquire, the camera-distance fill, the bucket sort by
`p_cameraDist` over `p_pos`/`p_vel`, and the GL release, with the state
returned unchanged; moreover the camera-distance sort is present in the
trace of every initialized tick, paused or not. -/
theorem paused_tick_only_camera_sort (s s' : FluidsState) (nowMs nowMs' : ℕ)
    (h : s.init = true) (hp : s.pause = true) (h' : s'.init = true) :
    Fluids.update s nowMs =
      (s, [Event.acquire glBuffersTick,
           Event.kernel KernelName.fillCameraDist s.currNbParticles,
           Event.sortBuf BufName.p_cameraDist [BufName.p_pos, BufName.p_vel],
           Event.release glBuffersTick]) ∧
    Event.sortBuf BufName.p_cameraDist [BufName.p_pos, BufName.p_vel]
      ∈ (Fluids.update s' nowMs').2 := by
  refine ⟨update_paused s nowMs h hp, ?_⟩
  cases hp' : s'.pause
  · rw [update_unpaused_trace s' nowMs' h' hp']
    simp
  · rw [update_paused s' nowMs' h' hp']
    simp

theorem paused_tick_witness :
    Fluids.update pausedState 50 =
      (pausedState,
       [Event.acquire glBuffersTick,
        Event.kernel KernelName.fillCameraDist pausedState.currNbParticles,
        Event.sortBuf BufName.p_cameraDist [BufName.p_pos, BufName.p_vel],
        Event.release glBuffersTick]) ∧
    Event.sortBuf BufName.p_cameraDist [BufName.p_pos, BufName.p_vel]
      ∈ (Fluids.update runState 50).2 :=
  paused_tick_only_camera_sort pausedState runState 50 50 rfl rfl rfl

/-- C4: the cell-range adjust/cap dispatch occurs in an initialized,
unpaused tick exactly when the simplified-mode flag is set; and the
adjust step (modelled from the spec, §4.3 step 4) leaves every cell range
of length at most the per-cell cap, truncating overfull cells — it is a
total function with no error outcome. -/
theorem adjust_cap_iff_simplified_and_capped (s : FluidsState) (nowMs : ℕ)
    (h : s.init = true) (hp : s.pause = false)
    (cap : ℕ) (table : List (ℕ × ℕ)) (se : ℕ × ℕ)
    (hse : se ∈ adjustEndCellRun cap table) :
    (Event.kernel KernelName.adjustEndCell s.nbCells ∈ (Fluids.update s nowMs).2 ↔
      s.simplifiedMode = true) ∧
    se.2 - se.1 ≤ cap := by
  constructor
  · rw [update_unpaused_trace s nowMs h hp]
    constructor
    · intro hmem
      cases hS : s.simplifiedMode
      · exfalso
        simp [hS, jacobiIter, glBuffersTick, adjust_not_in_boundarySwitch] at hmem
      · rfl
    · intro hS
      simp [hS]
  · rcases List.mem_map.mp hse with ⟨a, _, rfl⟩
    have := min_le_right a.2 (a.1 + cap)
    simp only []
    omega

theorem adjust_cap_witness :
    (Event.kernel KernelName.adjustEndCell runState.nbCells
        ∈ (Fluids.update runState 16).2 ↔
      runState.simplifiedMode = true) ∧
    ((0, 3) : ℕ × ℕ).2 - ((0, 3) : ℕ × ℕ).1 ≤ 3 :=
  adjust_cap_iff_simplified_and_capped runState 16 rfl rfl 3 [(0, 5)] (0, 3) (by decide)

/-- C8 amended: the occupancy grid (grid detector) is flushed and then
immediately refilled in every initialized, unpaused tick; a tick executed
while paused does not touch it. -/
theorem grid_detector_refreshed_unpaused (s : FluidsState) (nowMs : ℕ)
    (h : s.init = true) (hp : s.pause = false)
    (s' : FluidsState) (nowMs' : ℕ) (h' : s'.init = true) (hp' : s'.pause = true) :
    (∃ p q, (Fluids.update s nowMs).2 =
        p ++ [Event.kernel KernelName.flushGridDetector s.nbCells,
              Event.kernel KernelName.fillGridDetector s.currNbParticles] ++ q) ∧
    (Fluids.update s' nowMs').2.all (fun e => !e.touchesGridDetector) = true := by
  constructor
  · refine ⟨[Event.acquire glBuffersTick,
       Event.kernel KernelName.fillCellIDs s.currNbParticles,
       Event.sortBuf BufName.p_cellID [BufName.p_pos, BufName.p_vel],
       Event.argF KernelName.predictPosition 2 (Fluids.timeStepOf s nowMs),
       Event.kernel KernelName.predictPosition s.currNbParticles,
       Event.kernel KernelName.flushStartEndCell s.nbCells,
       Event.kernel KernelName.fillStartCell s.currNbParticles,
       Event.kernel KernelName.fillEndCell s.currNbParticles]
      ++ (if s.simplifiedMode then [Event.kernel KernelName.adjustEndCell s.nbCells] else [])
      ++ (jacobiIter s.currNbParticles ++ jacobiIter s.currNbParticles
            ++ jacobiIter s.currNbParticles)
      ++ [Event.argF KernelName.updateVel 1 (Fluids.timeStepOf s nowMs),
          Event.kernel KernelName.updateVel s.currNbParticles]
      ++ boundarySwitch s.boundary (Fluids.timeStepOf s nowMs) s.currNbParticles,
      [Event.kernel KernelName.fillCameraDist s.currNbParticles,
       Event.sortBuf BufName.p_cameraDist [BufName.p_pos, BufName.p_vel],
       Event.release glBuffersTick], ?_⟩
    rw [update_unpaused_trace s nowMs h hp]
    simp
  · rw [update_paused s' nowMs' h' hp']
    simp [Event.touchesGridDetector]

theorem grid_detector_witness :
    (∃ p q, (Fluids.update runState 16).2 =
        p ++ [Event.kernel KernelName.flushGridDetector runState.nbCells,
              Event.kernel KernelName.fillGridDetector runState.currNbParticles] ++ q) ∧
    (Fluids.update pausedState 16).2.all (fun e => !e.touchesGridDetector) = true :=
  grid_detector_refreshed_unpaused runState 16 rfl rfl pausedState 16 rfl rfl

/-- C8 counterexample: a tick executed while paused issues a non-empty
event list that contains neither the grid-detector flush nor its fill —
the occupancy grid is not refreshed on every tick. -/
theorem grid_detector_paused_counterexample :
    (Fluids.update pausedState 100).2 ≠ [] ∧
    (Fluids.update pausedState 100).2.all (fun e => !e.touchesGridDetector) = true := by
  decide

/-- C7 amended: an out-of-range boundary mode is silently tolerated, not
rejected — the constructor accepts any boundary value and still sets the
initialization flag, and an initialized, unpaused tick with a boundary
value that is neither enumerator executes fully (the predict dispatch is
present) while issuing no position-update kernel at all, leaving `p_pos`
not rewritten from `p_predPos` that tick. -/
theorem invalid_boundary_silently_skips_update (s : FluidsState) (nowMs : ℕ)
    (h : s.init = true) (hp : s.pause = false)
    (hb1 : s.boundary ≠ Boundary.cyclicWall) (hb2 : s.boundary ≠ Boundary.bouncingWall)
    (p : ModelParams) (nowMs' : ℕ) :
    (Fluids.update s nowMs).2.all (fun e => !e.isPosUpdate) = true ∧
    Event.kernel KernelName.predictPosition s.currNbParticles ∈ (Fluids.update s nowMs).2 ∧
    (Fluids.construct p nowMs').1.init = true := by
  refine ⟨?_, ?_, ?_⟩
  · rw [update_unpaused_trace s nowMs h hp]
    have hbs : boundarySwitch s.boundary (Fluids.timeStepOf s nowMs) s.currNbParticles = [] := by
      unfold boundarySwitch
      rw [if_neg hb1, if_neg hb2]
    cases hS : s.simplifiedMode <;>
      simp [hS, hbs, jacobiIter, Event.isPosUpdate]
  · rw [update_unpaused_trace s nowMs h hp]
    simp
  · simp [Fluids.construct, Fluids.reset]

/-- C7 counterexample: with boundary value 2 (neither `CyclicWall` nor
`BouncingWall`) the constructor succeeds (initialization flag set, no
rejection) and a tick executes — the predict kernel runs — yet no
position-update kernel is dispatched. -/
theorem invalid_boundary_counterexample :
    (Fluids.update invalidBoundaryState 16).2.all (fun e => !e.isPosUpdate) = true ∧
    Event.kernel KernelName.predictPosition 1 ∈ (Fluids.update invalidBoundaryState 16).2 ∧
    (Fluids.construct invalidParams 0).1.init = true := by
  decide

theorem invalid_boundary_witness :
    (Fluids.update invalidBoundaryState 32).2.all (fun e => !e.isPosUpdate) = true ∧
    Event.kernel KernelName.predictPosition invalidBoundaryState.currNbParticles
      ∈ (Fluids.update invalidBoundaryState 32).2 ∧
    (Fluids.construct invalidParams 5).1.init = true :=
  invalid_boundary_silently_skips_update invalidBoundaryState 32 rfl rfl
    (by decide) (by decide) invalidParams 5

/-- C3: every initialized, unpaused tick runs exactly
`MAX_NB_JACOBI_ITERS = 3` Jacobi rounds, contiguously and in order —
the trace decomposes as a solver-free prefix, three consecutive copies of
the round (density, constraint factor, constraint correction, correct
position, in that order), and a solver-free suffix. -/
theorem jacobi_three_rounds_in_order (s : FluidsState) (nowMs : ℕ)
    (h : s.init = true) (hp : s.pause = false) :
    MAX_NB_JACOBI_ITERS = 3 ∧
    ∃ p q,
      (Fluids.update s nowMs).2 =
        p ++ (jacobiIter s.currNbParticles ++ jacobiIter s.currNbParticles
                ++ jacobiIter s.currNbParticles) ++ q ∧
      p.all (fun e => !e.isSolverPass) = true ∧
      q.all (fun e => !e.isSolverPass) = true := by
  refine ⟨rfl,
    [Event.acquire glBuffersTick,
     Event.kernel KernelName.fillCellIDs s.currNbParticles,
     Event.sortBuf BufName.p_cellID [BufName.p_pos, BufName.p_vel],
     Event.argF KernelName.predictPosition 2 (Fluids.timeStepOf s nowMs),
     Event.kernel KernelName.predictPosition s.currNbParticles,
     Event.kernel KernelName.flushStartEndCell s.nbCells,
     Event.kernel KernelName.fillStartCell s.currNbParticles,
     Event.kernel KernelName.fillEndCell s.currNbParticles]
    ++ (if s.simplifiedMode then [Event.kernel KernelName.adjustEndCell s.nbCells] else []),
    [Event.argF KernelName.updateVel 1 (Fluids.timeStepOf s nowMs),
     Event.kernel KernelName.updateVel s.currNbParticles]
    ++ boundarySwitch s.boundary (Fluids.timeStepOf s nowMs) s.currNbParticles
    ++ [Event.kernel KernelName.flushGridDetector s.nbCells,
        Event.kernel KernelName.fillGridDetector s.currNbParticles,
        Event.kernel KernelName.fillCameraDist s.currNbParticles,
        Event.sortBuf BufName.p_cameraDist [BufName.p_pos, BufName.p_vel],
        Event.release glBuffersTick], ?_, ?_, ?_⟩
  · rw [update_unpaused_trace s nowMs h hp]
    simp
  · cases hS : s.simplifiedMode <;> simp [hS, Event.isSolverPass]
  · have hbs : (boundarySwitch s.boundary (Fluids.timeStepOf s nowMs)
        s.currNbParticles).all (fun e => !e.isSolverPass) = true := by
      unfold boundarySwitch
      split
      · simp [Event.isSolverPass]
      · split <;> simp [Event.isSolverPass]
    rw [List.all_append, List.all_append, hbs]
    simp [Event.isSolverPass]

theorem jacobi_three_rounds_witness :
    MAX_NB_JACOBI_ITERS = 3 ∧
    ∃ p q,
      (Fluids.update runState 16).2 =
        p ++ (jacobiIter runState.currNbParticles ++ jacobiIter runState.currNbParticles
                ++ jacobiIter runState.currNbParticles) ++ q ∧
      p.all (fun e => !e.isSolverPass) = true ∧
      q.all (fun e => !e.isSolverPass) = true :=
  jacobi_three_rounds_in_order runState 16 rfl rfl

/-- C6: every sort invocation a tick issues — the physics sort keyed by
`p_cellID` and the render sort keyed by `p_cameraDist` — carries exactly
the pair `p_pos`, `p_vel` as payloads of that single invocation, and the
modelled sort applies the one permutation derived from the keys to each
payload, so sorting the zipped position/velocity pairs agrees with zipping
the two sorted buffers: `Position[i]` and `Velocity[i]` keep referring to
the same particle. -/
theorem sort_payloads_pair_pos_vel (s : FluidsState) (nowMs : ℕ) (k : BufName)
    (ps : List BufName) (hmem : Event.sortBuf k ps ∈ (Fluids.update s nowMs).2)
    (keys : List ℕ) (pos vel : List Vec3) (hlen : pos.length = vel.length) :
    ps = [BufName.p_pos, BufName.p_vel] ∧
    sortPayload keys (pos.zip vel) =
      (sortPayload keys pos).zip (sortPayload keys vel) := by
  constructor
  · have hall := List.all_eq_true.mp (pairedSort_all s nowMs) _ hmem
    simpa [Event.pairedSortOK] using hall
  · simp only [sortPayload, applyPerm]
    rw [List.zip_map']
    apply List.map_congr_left
    intro i _
    exact getD_zip pos vel hlen i

theorem sort_payloads_witness :
    ([BufName.p_pos, BufName.p_vel] : List BufName) = [BufName.p_pos, BufName.p_vel] ∧
    sortPayload [1, 0] (([⟨1, 2, 3⟩, ⟨4, 5, 6⟩] : List Vec3).zip
        ([⟨0, 0, 1⟩, ⟨0, 1, 0⟩] : List Vec3)) =
      (sortPayload [1, 0] ([⟨1, 2, 3⟩, ⟨4, 5, 6⟩] : List Vec3)).zip
        (sortPayload [1, 0] ([⟨0, 0, 1⟩, ⟨0, 1, 0⟩] : List Vec3)) :=
  sort_payloads_pair_pos_vel runState 16 BufName.p_cameraDist
    [BufName.p_pos, BufName.p_vel] (by decide)
    [1, 0] [⟨1, 2, 3⟩, ⟨4, 5, 6⟩] [⟨0, 0, 1⟩, ⟨0, 1, 0⟩] rfl

/-- C2 amended: in every initialized, unpaused tick the cell-ID buffer
read by the physics sort holds the grid cells of the `PredictedPosition`
buffer as it stands entering the tick (the previous tick's corrected
predictions) — the cell-ID fill is the only buffer write before the sort,
and the predict dispatch that seeds this tick's fresh prediction from
`Position + Velocity * timeStep` appears strictly after the sort. -/
theorem cellID_at_sort_is_previous_predPos (s : FluidsState) (nowMs : ℕ)
    (b : PreBuffers) (h : s.init = true) (hp : s.pause = false) :
    cellIDsAtPhysicsSort s nowMs b =
      fillCellIDsRun s.boxSize s.gridRes s.currNbParticles b.predPos b.cellID ∧
    ∃ p q,
      (Fluids.update s nowMs).2 =
        p ++ [Event.sortBuf BufName.p_cellID [BufName.p_pos, BufName.p_vel]] ++ q ∧
      p = [Event.acquire glBuffersTick,
           Event.kernel KernelName.fillCellIDs s.currNbParticles] ∧
      Event.kernel KernelName.predictPosition s.currNbParticles ∈ q := by
  constructor
  · unfold cellIDsAtPhysicsSort
    rw [update_unpaused_trace s nowMs h hp]
    simp [List.takeWhile, Event.isPhysicsSort, stepPre]
  · refine ⟨[Event.acquire glBuffersTick,
       Event.kernel KernelName.fillCellIDs s.currNbParticles],
      [Event.argF KernelName.predictPosition 2 (Fluids.timeStepOf s nowMs),
       Event.kernel KernelName.predictPosition s.currNbParticles,
       Event.kernel KernelName.flushStartEndCell s.nbCells,
       Event.kernel KernelName.fillStartCell s.currNbParticles,
       Event.kernel KernelName.fillEndCell s.currNbParticles]
      ++ (if s.simplifiedMode then [Event.kernel KernelName.adjustEndCell s.nbCells] else [])
      ++ (jacobiIter s.currNbParticles ++ jacobiIter s.currNbParticles
            ++ jacobiIter s.currNbParticles)
      ++ [Event.argF KernelName.updateVel 1 (Fluids.timeStepOf s nowMs),
          Event.kernel KernelName.updateVel s.currNbParticles]
      ++ boundarySwitch s.boundary (Fluids.timeStepOf s nowMs) s.currNbParticles
      ++ [Event.kernel KernelName.flushGridDetector s.nbCells,
          Event.kernel KernelName.fillGridDetector s.currNbParticles,
          Event.kernel KernelName.fillCameraDist s.currNbParticles,
          Event.sortBuf BufName.p_cameraDist [BufName.p_pos, BufName.p_vel],
          Event.release glBuffersTick], ?_, rfl, ?_⟩
    · rw [update_unpaused_trace s nowMs h hp]
      simp
    · simp

/-- C2 counterexample: with one particle whose stale predicted position
sits in grid cell 0 while the fresh prediction
`Position + Velocity * timeStep` (time step 1) lands in cell 7, the
cell-ID value the physics sort reads is 0, not the cell of the fresh
prediction. -/
theorem cellID_fresh_prediction_counterexample :
    Fluids.timeStepOf runState 16 = 1 ∧
    (cellIDsAtPhysicsSort runState 16 staleBuffers).getD 0 0 = 0 ∧
    gridCellID runState.boxSize runState.gridRes
      (predictParticle (Fluids.timeStepOf runState 16)
        (staleBuffers.pos.getD 0 default) (staleBuffers.vel.getD 0 default)) = 7 ∧
    (cellIDsAtPhysicsSort runState 16 staleBuffers).getD 0 0 ≠
      gridCellID runState.boxSize runState.gridRes
        (predictParticle (Fluids.timeStepOf runState 16)
          (staleBuffers.pos.getD 0 default) (staleBuffers.vel.getD 0 default)) := by
  have hts : Fluids.timeStepOf runState 16 = 1 := by
    norm_num [Fluids.timeStepOf, runState]
  have hc0 : cellCoordOf 10 2 (-4) = 0 := by
    unfold cellCoordOf
    have he : ((-4 : ℚ) + 10 / 2) * ((2 : ℕ) : ℚ) / 10 = 1 / 5 := by norm_num
    rw [he]
    have hf : ⌊(1 / 5 : ℚ)⌋ = 0 :=
      Int.floor_eq_zero_iff.mpr (Set.mem_Ico.mpr ⟨by norm_num, by norm_num⟩)
    rw [hf]
    rfl
  have hc3 : cellCoordOf 10 2 3 = 1 := by
    unfold cellCoordOf
    have he : ((3 : ℚ) + 10 / 2) * ((2 : ℕ) : ℚ) / 10 = 8 / 5 := by norm_num
    rw [he]
    have hf : ⌊(8 / 5 : ℚ)⌋ = 1 := by
      rw [Int.floor_eq_iff]
      constructor <;> norm_num
    rw [hf]
    rfl
  have hg0 : gridCellID 10 2 ⟨-4, -4, -4⟩ = 0 := by
    simp [gridCellID, hc0]
  have hg3 : gridCellID 10 2 ⟨3, 3, 3⟩ = 7 := by
    simp [gridCellID, hc3]
  have hg3r : gridCellID runState.boxSize runState.gridRes ⟨3, 3, 3⟩ = 7 := hg3
  have hpre : predictParticle (Fluids.timeStepOf runState 16)
      (staleBuffers.pos.getD 0 default) (staleBuffers.vel.getD 0 default) = ⟨3, 3, 3⟩ := by
    rw [hts]
    norm_num [predictParticle, staleBuffers]
  have hcell : cellIDsAtPhysicsSort runState 16 staleBuffers = [0] := by
    unfold cellIDsAtPhysicsSort
    rw [update_unpaused_trace runState 16 rfl rfl]
    simp only [List.cons_append, List.takeWhile_cons, Event.isPhysicsSort, Bool.not_false,
      Bool.not_true, if_true, if_false, List.takeWhile_nil, List.foldl_cons, List.foldl_nil,
      stepPre]
    simp only [fillCellIDsRun, staleBuffers, runState]
    norm_num [List.range_succ, hg0]
  refine ⟨hts, by rw [hcell]; rfl, by rw [hpre]; exact hg3r, ?_⟩
  rw [hcell, hpre, hg3r]
  decide

theorem cellID_at_sort_witness :
    cellIDsAtPhysicsSort runState 16 staleBuffers =
      fillCellIDsRun runState.boxSize runState.gridRes runState.currNbParticles
        staleBuffers.predPos staleBuffers.cellID ∧
    ∃ p q,
      (Fluids.update runState 16).2 =
        p ++ [Event.sortBuf BufName.p_cellID [BufName.p_pos, BufName.p_vel]] ++ q ∧
      p = [Event.acquire glBuffersTick,
           Event.kernel KernelName.fillCellIDs runState.currNbParticles] ∧
      Event.kernel KernelName.predictPosition runState.currNbParticles ∈ q :=
  cellID_at_sort_is_previous_predPos runState 16 staleBuffers rfl rfl

/-- Supporting lemma: when the wall-clock delta exceeds 480 ms (so that
delta/16 exceeds 30) the clamped time step of the tick is exactly zero,
and zero is then the scalar bound to the predict kernel (slot 2) and to
the velocity-update kernel (slot 1) in that tick's trace. -/
theorem timeStep_clamped_to_zero (s : FluidsState) (nowMs : ℕ)
    (h : s.init = true) (hp : s.pause = false) (hgap : 480 < nowMs - s.time) :
    Fluids.timeStepOf s nowMs = 0 ∧
    Event.argF KernelName.predictPosition 2 0 ∈ (Fluids.update s nowMs).2 ∧
    Event.argF KernelName.updateVel 1 0 ∈ (Fluids.update s nowMs).2 := by
  have hlt : (30 : ℚ) < ((nowMs - s.time : ℕ) : ℚ) / 16 := by
    have h1 : (480 : ℚ) < ((nowMs - s.time : ℕ) : ℚ) := by exact_mod_cast hgap
    linarith
  have hts : Fluids.timeStepOf s nowMs = 0 := by
    have hdef : Fluids.timeStepOf s nowMs =
        if 30 < ((nowMs - s.time : ℕ) : ℚ) / 16 then 0
        else ((nowMs - s.time : ℕ) : ℚ) / 16 := rfl
    rw [hdef, if_pos hlt]
  refine ⟨hts, ?_, ?_⟩ <;>
  · rw [update_unpaused_trace s nowMs h hp, hts]
    simp
